import Mathlib

/-!
Verification of the Pocket_Monsters repository (battle.py, poke_team.py,
tower.py) against its natural-language specification.

The Python sources under src/ are translated into executable Lean
definitions.  The repository's helper modules `pokemon.py` and the
`data_structures` package are not under src/: the combatant operations
(`attack`, `defend`, `level_up`, `is_alive`, stat getters) and the three
container variants (ArrayStack, CircularQueue, ArraySortedList, the raw
ArrayR array) are therefore modelled from the specification, each marked
`Modelled from the spec:` in its doc comment.  Machine integers are
modelled as `Int`/`Nat` (no overflow concerns arise in this code base) and
Python floats used by the Pokedex-completion ratio are modelled as `Rat`.
Fallible Python operations (popping an empty stack, serving an empty
queue, exceeding a container's fixed capacity, dispatching on a container
of the wrong kind) are modelled with `Option`, `none` standing for the
raised exception.
-/

namespace PocketMonstersProof

/-- The three battle modes of `battle_mode.py` (SET, ROTATE, OPTIMISE). -/
inductive BattleMode where
  | SET
  | ROTATE
  | OPTIMISE
deriving DecidableEq, Repr

/-- Modelled from the spec: a combatant is a mutable entity with integer
`health` (0 or below means dead), `level` (increases on kill), `speed`,
a battle-power stat used as its raw attack value, `defence`, and a
numeric `poketype` tag used for Pokedex-registration bookkeeping
(`pokemon.py` is not under src/). -/
structure Pokemon where
  health : Int
  level : Int
  speed : Int
  battle_power : Int
  defence : Int
  poketype : Nat
deriving DecidableEq, Repr

/-- Modelled from the spec: `is_alive() ⇔ health > 0`. -/
def Pokemon.is_alive (p : Pokemon) : Bool :=
  decide (0 < p.health)

/-- Modelled from the spec: `attack` yields the attacker's own raw attack
value (its battle-power stat); the target does not affect the returned
value in this model (`pokemon.py` is not under src/). -/
def Pokemon.attack (p : Pokemon) (_target : Pokemon) : Int :=
  p.battle_power

/-- Modelled from the spec: `defend(d)` subtracts the effective damage
from the defender's health. -/
def Pokemon.defend (p : Pokemon) (damage : Int) : Pokemon :=
  { p with health := p.health - damage }

/-- Modelled from the spec: the survivor of an exchange gains one level. -/
def Pokemon.level_up (p : Pokemon) : Pokemon :=
  { p with level := p.level + 1 }

/-- `PokeTeam.TEAM_LIMIT` (src/poke_team.py line 15): the fixed capacity
of every team container. -/
def TEAM_LIMIT : Nat := 6

/-- A storage slot of the array-backed containers.  Python containers can
physically hold `None` (the ArrayR used by `PokeTeam.__getitem__` is
initialised to all-`None`, and its padding entries flow back into the
rebuilt queue), so slots are `Option Pokemon`. -/
abbrev Slot := Option Pokemon

/-- Modelled from the spec: `ArrayStack.push` inserts at the top (list
head); inserting beyond the fixed capacity raises (`none`).
(`data_structures/stack_adt.py` is not under src/.) -/
def stackPush (s : List Slot) (x : Slot) : Option (List Slot) :=
  if s.length < TEAM_LIMIT then some (x :: s) else none

/-- Modelled from the spec: `ArrayStack.pop` removes and returns the top;
popping an empty stack raises (`none`). -/
def stackPop (s : List Slot) : Option (Slot × List Slot) :=
  match s with
  | [] => none
  | x :: rest => some (x, rest)

/-- Modelled from the spec: `ArrayStack.peek` inspects the top without
removing it; peeking an empty stack raises (`none`). -/
def stackPeek (s : List Slot) : Option Slot :=
  match s with
  | [] => none
  | x :: _ => some x

/-- Modelled from the spec: `CircularQueue.append` inserts at the tail
(list end); inserting beyond the fixed capacity raises (`none`).
(`data_structures/queue_adt.py` is not under src/.) -/
def queueAppend (cap : Nat) (q : List Slot) (x : Slot) : Option (List Slot) :=
  if q.length < cap then some (q ++ [x]) else none

/-- Modelled from the spec: `CircularQueue.serve` removes and returns the
head; serving an empty queue raises (`none`). -/
def queueServe (q : List Slot) : Option (Slot × List Slot) :=
  match q with
  | [] => none
  | x :: rest => some (x, rest)

/-- `ListItem` of `data_structures/sorted_list_adt.py` (not under src/):
a combatant paired with its priority key, modelled from the spec. -/
structure ListItem where
  value : Pokemon
  key : Int
deriving DecidableEq, Repr

/-- Modelled from the spec: the insertion position of
`ArraySortedList.add` — ascending by key, ties broken by stable insertion
order (first inserted among equal keys sorts first), so a new item goes
after the existing items whose key it equals. -/
def sortedInsert (l : List ListItem) (x : ListItem) : List ListItem :=
  match l with
  | [] => [x]
  | y :: ys => if x.key < y.key then x :: y :: ys else y :: sortedInsert ys x

/-- Modelled from the spec: `ArraySortedList.add` with the fixed-capacity
failure mode (`data_structures/array_sorted_list.py` is not under src/). -/
def sortedAdd (l : List ListItem) (x : ListItem) : Option (List ListItem) :=
  if l.length < TEAM_LIMIT then some (sortedInsert l x) else none

/-- Modelled from the spec: `ArraySortedList.delete_at_index(0)` removes
and returns the minimum-key item; raises on an empty list (`none`). -/
def sortedDeleteAt0 (l : List ListItem) : Option (ListItem × List ListItem) :=
  match l with
  | [] => none
  | x :: rest => some (x, rest)

/-- Modelled from the spec: a fresh `ArrayR(TEAM_LIMIT)` — a fixed-size
referential array whose slots are initially `None` and whose Python
`len` is its capacity. -/
def arrayRNew : List Slot := List.replicate TEAM_LIMIT none

/-- The container held by `PokeTeam.team`: one of the three
`OrderedContainer` variants, or the raw `ArrayR` array used before
assembly and inside `PokeTeam.__getitem__`'s queue branch. -/
inductive TeamContainer where
  | stack (elems : List Slot)
  | queue (elems : List Slot)
  | sortedList (elems : List ListItem)
  | arr (elems : List Slot)
deriving DecidableEq, Repr

/-- Python `len` of each container: the element count for the stack,
queue and sorted list; the capacity (= backing-array length) for
`ArrayR`. -/
def containerLen : TeamContainer → Nat
  | .stack s => s.length
  | .queue q => q.length
  | .sortedList l => l.length
  | .arr a => a.length

/-- `is_empty` of the stack/queue containers (element count zero). -/
def containerIsEmpty : TeamContainer → Bool
  | .stack s => s.isEmpty
  | .queue q => q.isEmpty
  | .sortedList l => l.isEmpty
  | .arr a => a.isEmpty

/-- Direct Python indexing `self.team[i]` as used by
`PokeTeam.assemble_team` (src/poke_team.py lines 199-208): defined for
the `ArrayR` container, which is the only container those loops index in
any reachable state; the stack and queue containers have no `__getitem__`
(TypeError, `none`), and indexing the sorted list would hand its
key-item pairs to slot-consuming code, likewise unsupported. -/
def containerIdx : TeamContainer → Nat → Option Slot
  | .arr a, i => a.get? i
  | _, _ => none

/-- The externally observable member sequence of a container: the stored
combatants in container order, skipping empty (`None`) slots; for the
sorted list, the combatants carried by its key-item pairs. -/
def containerMembers : TeamContainer → List Pokemon
  | .stack s => s.filterMap id
  | .queue q => q.filterMap id
  | .sortedList l => l.map ListItem.value
  | .arr a => a.filterMap id

/-- `PokeTeam` (src/poke_team.py lines 11-36): the container, the
live-member count `team_count`, the configured ranking criterion, and the
battle mode recorded by `assemble_team` (Python sets the attribute on
first assembly; `push` reads it). -/
structure PokeTeam where
  team : TeamContainer
  team_count : Int
  criterion : String
  battle_mode : BattleMode
deriving DecidableEq, Repr

/-- `PokeTeam.is_empty` (src/poke_team.py lines 354-365):
`team_count == 0`. -/
def PokeTeam.is_empty (t : PokeTeam) : Bool :=
  decide (t.team_count = 0)

/-- The valid ranking criteria, `PokeTeam.CRITERION_LIST`
(src/poke_team.py line 17). -/
def CRITERION_LIST : List String :=
  ["health", "defence", "battle_power", "speed", "level"]

/-- `PokeTeam.push` (src/poke_team.py lines 367-401), dispatching on the
team's battle mode.  SET pushes onto the stack, ROTATE appends to the
queue (a mismatched container raises, `none`).  OPTIMISE wraps the
combatant in a `ListItem` keyed by `isNegative *` the current criterion
stat and adds it to the sorted list; with an unrecognized criterion the
source adds the bare combatant to the key-ordered list, whose key
comparisons against it are a type error (`none`). -/
def PokeTeam.push (t : PokeTeam) (pokemon : Pokemon) (criterion : String)
    (isNegative : Int) : Option PokeTeam :=
  match t.battle_mode with
  | .SET =>
    match t.team with
    | .stack s => (stackPush s (some pokemon)).map fun s' => { t with team := .stack s' }
    | _ => none
  | .ROTATE =>
    match t.team with
    | .queue q => (queueAppend TEAM_LIMIT q (some pokemon)).map fun q' => { t with team := .queue q' }
    | _ => none
  | .OPTIMISE =>
    match t.team with
    | .sortedList l =>
      if criterion = "health" then
        (sortedAdd l ⟨pokemon, isNegative * pokemon.health⟩).map fun l' => { t with team := .sortedList l' }
      else if criterion = "defence" then
        (sortedAdd l ⟨pokemon, isNegative * pokemon.defence⟩).map fun l' => { t with team := .sortedList l' }
      else if criterion = "battle_power" then
        (sortedAdd l ⟨pokemon, isNegative * pokemon.battle_power⟩).map fun l' => { t with team := .sortedList l' }
      else if criterion = "speed" then
        (sortedAdd l ⟨pokemon, isNegative * pokemon.speed⟩).map fun l' => { t with team := .sortedList l' }
      else if criterion = "level" then
        (sortedAdd l ⟨pokemon, isNegative * pokemon.level⟩).map fun l' => { t with team := .sortedList l' }
      else
        none
    | _ => none

/-- `for i in range(n): storage.push(team.pop())` — the drain/restore
loops of `PokeTeam.__getitem__`'s stack branch (src/poke_team.py lines
294-302): pops `n` slots from the first stack, pushing each onto the
second; returns the remaining source and the grown destination. -/
def popPushN : Nat → List Slot → List Slot → Option (List Slot × List Slot)
  | 0, s, d => some (s, d)
  | n+1, s, d => do
    let (x, s') ← stackPop s
    let d' ← stackPush d x
    popPushN n s' d'

/-- `for i in range(n): q.append(s.pop())` — the stack-to-queue transfer
loops of `PokeTeam.special` (src/poke_team.py lines 244-245, 264-265);
the destination queue has capacity `TEAM_LIMIT`. -/
def popAppendN : Nat → List Slot → List Slot → Option (List Slot × List Slot)
  | 0, s, q => some (s, q)
  | n+1, s, q => do
    let (x, s') ← stackPop s
    let q' ← queueAppend TEAM_LIMIT q x
    popAppendN n s' q'

/-- `for i in range(n): s.push(q.serve())` — the queue-to-stack transfer
loops of `PokeTeam.special` (src/poke_team.py lines 247-248, 261-262). -/
def servePushN : Nat → List Slot → List Slot → Option (List Slot × List Slot)
  | 0, q, s => some (q, s)
  | n+1, q, s => do
    let (x, q') ← queueServe q
    let s' ← stackPush s x
    servePushN n q' s'

/-- `for i in range(n): temp.append(q.serve())` — the queue-to-queue
transfer loop of `PokeTeam.special`'s ROTATE branch (src/poke_team.py
lines 256-257); the destination queue has capacity `TEAM_LIMIT`. -/
def serveAppendN : Nat → List Slot → List Slot → Option (List Slot × List Slot)
  | 0, q, d => some (q, d)
  | n+1, q, d => do
    let (x, q') ← queueServe q
    let d' ← queueAppend TEAM_LIMIT d x
    serveAppendN n q' d'

/-- `for i in range(n): storage[i] = q.serve()` — the queue drain of
`PokeTeam.__getitem__`'s queue branch (src/poke_team.py lines 309-311),
writing served slots into the `ArrayR` starting at position `i`. -/
def serveIntoArr : Nat → List Slot → List Slot → Nat → Option (List Slot × List Slot)
  | 0, q, a, _ => some (q, a)
  | n+1, q, a, i => do
    let (x, q') ← queueServe q
    serveIntoArr n q' (a.set i x) (i+1)

/-- `for i in range(n): new.append(self.team[i])` — the rebuild loop of
`PokeTeam.assemble_team`'s ROTATE branch (src/poke_team.py lines
207-208), reading the source container by direct index. -/
def buildQueueFrom (src : TeamContainer) : Nat → Nat → List Slot → Option (List Slot)
  | 0, _, acc => some acc
  | n+1, i, acc => do
    let x ← containerIdx src i
    let acc' ← queueAppend TEAM_LIMIT acc x
    buildQueueFrom src n (i+1) acc'

/-- `for i in range(n): new.push(self.team[i])` — the rebuild loop of
`PokeTeam.assemble_team`'s SET branch (src/poke_team.py lines
199-200). -/
def buildStackFrom (src : TeamContainer) : Nat → Nat → List Slot → Option (List Slot)
  | 0, _, acc => some acc
  | n+1, i, acc => do
    let x ← containerIdx src i
    let acc' ← stackPush acc x
    buildStackFrom src n (i+1) acc'

/-- The ROTATE branch of `PokeTeam.assemble_team` (src/poke_team.py lines
194, 204-210): record the mode and rebuild the container as a queue of
the indexed source slots.  Split out because `PokeTeam.__getitem__`'s
queue branch invokes exactly this branch. -/
def assembleRotate (t : PokeTeam) : Option PokeTeam :=
  let t := { t with battle_mode := BattleMode.ROTATE }
  (buildQueueFrom t.team (containerLen t.team) 0 []).map fun q =>
    { t with team := .queue q }

/-- `PokeTeam.__getitem__` (src/poke_team.py lines 277-324).  Stack: drain
`index+1` slots into a temporary stack, peek the target, restore.  Queue:
drain the whole queue into a fresh `ArrayR`, read the target by index,
replace the team by the array and reassemble it as a ROTATE queue (the
documented representation-changing side effect).  Sorted list: direct
indexed lookup of the stored pair's combatant.  `ArrayR`: direct indexed
lookup.  Returns the read slot together with the team after the read. -/
def getItem (t : PokeTeam) (index : Nat) : Option (Slot × PokeTeam) :=
  match t.team with
  | .stack s => do
    let (s', storage) ← popPushN (index + 1) s []
    let pokemon_at_index ← stackPeek storage
    let (_, s'') ← popPushN (index + 1) storage s'
    some (pokemon_at_index, { t with team := .stack s'' })
  | .queue q => do
    let (_, storage) ← serveIntoArr q.length q arrayRNew 0
    let pokemon_at_index ← storage.get? index
    let t' ← assembleRotate { t with team := .arr storage }
    some (pokemon_at_index, t')
  | .sortedList l =>
    (l.get? index).map fun item => (some item.value, t)
  | .arr a =>
    (a.get? index).map fun x => (x, t)

/-- `for i in range(n): temp.add(ListItem(self.team[i].value,
-self.team[i].key))` — the re-keying loop of `PokeTeam.special`'s
OPTIMISE branch (src/poke_team.py lines 272-273); sequential indexed
reads of the source list while `temp` grows separately. -/
def specialOptLoop : List ListItem → List ListItem → Option (List ListItem)
  | [], temp => some temp
  | x :: xs, temp => do
    let temp' ← sortedAdd temp ⟨x.value, -x.key⟩
    specialOptLoop xs temp'

/-- `PokeTeam.special` (src/poke_team.py lines 218-275).  SET: round-trip
the top half of the stack through a temporary queue (reversing it in
place).  ROTATE: move the front half to a temporary queue, push the rest
onto a stack, pop the stack into the temporary queue (appending the back
half reversed), and adopt the temporary queue.  OPTIMISE: rebuild the
sorted list with every key negated.  A container not matching the mode's
operations raises (`none`). -/
def special (t : PokeTeam) (battle_mode : BattleMode) : Option PokeTeam :=
  match battle_mode with
  | .SET =>
    match t.team with
    | .stack s => do
      let total_length := s.length
      let (s', q) ← popAppendN (total_length / 2) s []
      let (_, s'') ← servePushN (total_length / 2) q s'
      some { t with team := .stack s'' }
    | _ => none
  | .ROTATE =>
    match t.team with
    | .queue q0 => do
      let (q1, temp) ← serveAppendN (q0.length / 2) q0 []
      let total_length := q1.length
      let (_, s) ← servePushN total_length q1 []
      let (_, temp') ← popAppendN total_length s temp
      some { t with team := .queue temp' }
    | _ => none
  | .OPTIMISE =>
    match t.team with
    | .sortedList l =>
      (specialOptLoop l []).map fun temp => { t with team := .sortedList temp }
    | _ => none

/-- One criterion's loop of `PokeTeam.assign_team` (src/poke_team.py
lines 152-175): for each index, `ListItem(self[i], self[i].get_stat())`
evaluates `self[i]` twice left to right (each call runs `__getitem__`,
threading its side effects), wraps the combatant with the stat key and
adds it to the new sorted list.  A `None` slot has no stat getters
(AttributeError, `none`). -/
def assignLoop (critFn : Pokemon → Int) :
    Nat → Nat → PokeTeam → List ListItem → Option (PokeTeam × List ListItem)
  | 0, _, t, acc => some (t, acc)
  | n+1, i, t, acc => do
    let (slot₁, t') ← getItem t i
    let (slot₂, t'') ← getItem t' i
    let p₁ ← slot₁
    let p₂ ← slot₂
    let acc' ← sortedAdd acc ⟨p₁, critFn p₂⟩
    assignLoop critFn n (i+1) t'' acc'

/-- `PokeTeam.assign_team` (src/poke_team.py lines 138-180): build a new
sorted list keyed by the selected criterion; with an unrecognized
criterion only a message is printed and no item is added.  In every case
the team's container is then replaced by the new sorted list; the member
count is untouched. -/
def assignTeam (t : PokeTeam) (criterion : String) : Option PokeTeam :=
  let n := containerLen t.team
  if criterion = "health" then
    (assignLoop (fun p => p.health) n 0 t []).map fun r => { r.1 with team := .sortedList r.2 }
  else if criterion = "defence" then
    (assignLoop (fun p => p.defence) n 0 t []).map fun r => { r.1 with team := .sortedList r.2 }
  else if criterion = "battle_power" then
    (assignLoop (fun p => p.battle_power) n 0 t []).map fun r => { r.1 with team := .sortedList r.2 }
  else if criterion = "speed" then
    (assignLoop (fun p => p.speed) n 0 t []).map fun r => { r.1 with team := .sortedList r.2 }
  else if criterion = "level" then
    (assignLoop (fun p => p.level) n 0 t []).map fun r => { r.1 with team := .sortedList r.2 }
  else
    some { t with team := .sortedList [] }

/-- `PokeTeam.assemble_team` (src/poke_team.py lines 182-216): record the
battle mode, then rebuild the container as a stack (SET), a queue
(ROTATE), or hand over to `assign_team` with the team's configured
criterion (OPTIMISE). -/
def assembleTeam (t : PokeTeam) (battle_mode : BattleMode) : Option PokeTeam :=
  let t := { t with battle_mode := battle_mode }
  match battle_mode with
  | .SET =>
    (buildStackFrom t.team (containerLen t.team) 0 []).map fun s =>
      { t with team := .stack s }
  | .ROTATE => assembleRotate t
  | .OPTIMISE => assignTeam t t.criterion

/-- `math.ceil(attack_point * completion_attacker / completion_defender)`
as used in `Battle.battle` (src/battle.py lines 317, 322, 327, 332,
339-340).  The completion ratios are rationals in `(0, 1]` in every
reachable state (the spec demands failing loudly on a zero denominator;
Lean's total division by zero is never exercised by the theorems below,
which assume positive completions where the value matters). -/
def effective_damage (attack_point : Int) (c_att c_def : Rat) : Int :=
  ⌈(attack_point : Rat) * c_att / c_def⌉

/-- Result of one combat exchange (`Battle.battle`): the two combatants
after the exchange, plus flags recording whether `level_up` was invoked
on each (the flags instrument the calls at src/battle.py lines 346, 349,
356, 359). -/
structure ExchangeResult where
  p1 : Pokemon
  p2 : Pokemon
  leveled_1 : Bool
  leveled_2 : Bool
deriving DecidableEq, Repr

/-- The attack steps of `Battle.battle` (src/battle.py lines 312-343).
`c1`/`c2` are the two trainers' Pokedex-completion ratios (constant for
the duration of one exchange).  In the equal-speed branch the source
assigns `attack_point` twice in a row (lines 336-337), so the second
assignment overwrites the first; the translation reproduces this
shadowing faithfully. -/
def battle_attack_phase (c1 c2 : Rat) (p1 p2 : Pokemon) : Pokemon × Pokemon :=
  if p1.speed > p2.speed then
    let attack_point := p1.attack p2
    let p2 := p2.defend (effective_damage attack_point c1 c2)
    if p2.is_alive then
      let attack_point := p2.attack p1
      (p1.defend (effective_damage attack_point c2 c1), p2)
    else
      (p1, p2)
  else if p1.speed < p2.speed then
    let attack_point := p2.attack p1
    let p1 := p1.defend (effective_damage attack_point c2 c1)
    if p1.is_alive then
      let attack_point := p1.attack p2
      (p1, p2.defend (effective_damage attack_point c1 c2))
    else
      (p1, p2)
  else
    let attack_point := p1.attack p2
    let attack_point := p2.attack p1
    let effective_damage_p1 := effective_damage attack_point c1 c2
    let effective_damage_p2 := effective_damage attack_point c2 c1
    (p1.defend effective_damage_p2, p2.defend effective_damage_p1)

/-- The level-up / grind steps of `Battle.battle` (src/battle.py lines
345-359), applied to the combatants as left by the attack phase. -/
def battle_level_phase (p1 p2 : Pokemon) : ExchangeResult :=
  if p1.is_alive && !p2.is_alive then
    ⟨p1.level_up, p2, true, false⟩
  else if p2.is_alive && !p1.is_alive then
    ⟨p1, p2.level_up, false, true⟩
  else
    let p1 := { p1 with health := p1.health - 1 }
    let p2 := { p2 with health := p2.health - 1 }
    if !p1.is_alive then
      ⟨p1, p2.level_up, false, true⟩
    else if !p2.is_alive then
      ⟨p1.level_up, p2, true, false⟩
    else
      ⟨p1, p2, false, false⟩

/-- `Battle.battle` in full (src/battle.py lines 280-359): the attack
steps followed by the level-up / grind steps. -/
def battleFn (c1 c2 : Rat) (p1 p2 : Pokemon) : ExchangeResult :=
  let r := battle_attack_phase c1 c2 p1 p2
  battle_level_phase r.1 r.2

/-- `Trainer.register_pokemon` (src/poke_team.py lines 475-486): add the
combatant's type tag plus one to the trainer's Pokedex set. -/
def registerPokemon (dex : Finset Nat) (p : Pokemon) : Finset Nat :=
  insert (p.poketype + 1) dex

/-- The state a `Battle` object reads and mutates: the two trainers'
teams and Pokedex-completion sets. -/
structure BattleState where
  team1 : PokeTeam
  team2 : PokeTeam
  dex1 : Finset Nat
  dex2 : Finset Nat
deriving DecidableEq

/-- The winner side reported by a battle method: `self.trainer_1` or
`self.trainer_2` (a draw is `none` at the use sites). -/
inductive Winner where
  | trainer_1
  | trainer_2
deriving DecidableEq, Repr

/-- One iteration of the `Battle.set_battle` while-loop (src/battle.py
lines 132-151): pop one combatant from each stack (a `None` slot or a
non-stack container raises, `none`), register each with the opposing
trainer, run the exchange with the trainers' completion ratios
(`compl` maps a Pokedex set to `get_pokedex_completion()`), push
survivors back, and decrement `team_count` for the dead. -/
def setBattleStep (compl : Finset Nat → Rat) (st : BattleState) : Option BattleState :=
  match st.team1.team, st.team2.team with
  | .stack s1, .stack s2 => do
    let (x1, s1') ← stackPop s1
    let (x2, s2') ← stackPop s2
    let p1 ← x1
    let p2 ← x2
    let dex1 := registerPokemon st.dex1 p2
    let dex2 := registerPokemon st.dex2 p1
    let r := battleFn (compl dex1) (compl dex2) p1 p2
    let s1'' ← if r.p1.is_alive then stackPush s1' (some r.p1) else pure s1'
    let s2'' ← if r.p2.is_alive then stackPush s2' (some r.p2) else pure s2'
    let count1 := if !r.p1.is_alive then st.team1.team_count - 1 else st.team1.team_count
    let count2 := if !r.p2.is_alive then st.team2.team_count - 1 else st.team2.team_count
    some ⟨{ st.team1 with team := .stack s1'', team_count := count1 },
          { st.team2 with team := .stack s2'', team_count := count2 },
          dex1, dex2⟩
  | _, _ => none

/-- One iteration of the `Battle.rotate_battle` while-loop (src/battle.py
lines 186-205): serve one combatant from each queue, register, run the
exchange, append survivors to the tails, decrement counts for the
dead. -/
def rotateBattleStep (compl : Finset Nat → Rat) (st : BattleState) : Option BattleState :=
  match st.team1.team, st.team2.team with
  | .queue q1, .queue q2 => do
    let (x1, q1') ← queueServe q1
    let (x2, q2') ← queueServe q2
    let p1 ← x1
    let p2 ← x2
    let dex1 := registerPokemon st.dex1 p2
    let dex2 := registerPokemon st.dex2 p1
    let r := battleFn (compl dex1) (compl dex2) p1 p2
    let q1'' ← if r.p1.is_alive then queueAppend TEAM_LIMIT q1' (some r.p1) else pure q1'
    let q2'' ← if r.p2.is_alive then queueAppend TEAM_LIMIT q2' (some r.p2) else pure q2'
    let count1 := if !r.p1.is_alive then st.team1.team_count - 1 else st.team1.team_count
    let count2 := if !r.p2.is_alive then st.team2.team_count - 1 else st.team2.team_count
    some ⟨{ st.team1 with team := .queue q1'', team_count := count1 },
          { st.team2 with team := .queue q2'', team_count := count2 },
          dex1, dex2⟩
  | _, _ => none

/-- One iteration of the `Battle.optimise_battle` while-loop
(src/battle.py lines 242-269): delete the minimum-key pair from each
sorted list, register, run the exchange on the carried combatants, then
reinsert each survivor through `PokeTeam.push` with the battle's
criterion, passing `isNegative = -1` exactly when the extracted key was
negative; decrement counts for the dead. -/
def optimiseBattleStep (compl : Finset Nat → Rat) (criterion : String)
    (st : BattleState) : Option BattleState :=
  match st.team1.team, st.team2.team with
  | .sortedList l1, .sortedList l2 => do
    let (item1, l1') ← sortedDeleteAt0 l1
    let (item2, l2') ← sortedDeleteAt0 l2
    let dex1 := registerPokemon st.dex1 item2.value
    let dex2 := registerPokemon st.dex2 item1.value
    let r := battleFn (compl dex1) (compl dex2) item1.value item2.value
    let t1 := { st.team1 with team := TeamContainer.sortedList l1' }
    let t2 := { st.team2 with team := TeamContainer.sortedList l2' }
    let t1' ←
      if r.p1.is_alive then
        if item1.key < 0 then t1.push r.p1 criterion (-1) else t1.push r.p1 criterion 1
      else pure t1
    let t2' ←
      if r.p2.is_alive then
        if item2.key < 0 then t2.push r.p2 criterion (-1) else t2.push r.p2 criterion 1
      else pure t2
    let t1'' := if !r.p1.is_alive then { t1' with team_count := t1'.team_count - 1 } else t1'
    let t2'' := if !r.p2.is_alive then { t2' with team_count := t2'.team_count - 1 } else t2'
    some ⟨t1'', t2'', dex1, dex2⟩
  | _, _ => none

/-- The terminal clause of `Battle.set_battle` / `Battle.rotate_battle`
(src/battle.py lines 153-160, 207-214): both containers empty → no
winner; team 1's container empty → trainer 2; otherwise trainer 1. -/
def setRotateOutcome (st : BattleState) : Option Winner :=
  if containerIsEmpty st.team1.team && containerIsEmpty st.team2.team then none
  else if containerIsEmpty st.team1.team then some .trainer_2
  else some .trainer_1

/-- The terminal clause of `Battle.optimise_battle` (src/battle.py lines
271-278), phrased on `PokeTeam.is_empty` (the live count). -/
def optimiseOutcome (st : BattleState) : Option Winner :=
  if st.team1.is_empty && st.team2.is_empty then none
  else if st.team1.is_empty then some .trainer_2
  else some .trainer_1

/-- The `Battle.set_battle` loop (src/battle.py lines 129-160): while
both stacks are non-empty, run one exchange step; on exit report the
terminal outcome and the final state.  `fuel` bounds the iterations
(`none` = the bound ran out or a step raised). -/
def setBattleLoop (compl : Finset Nat → Rat) :
    Nat → BattleState → Option (Option Winner × BattleState)
  | 0, _ => none
  | fuel+1, st =>
    if !containerIsEmpty st.team1.team && !containerIsEmpty st.team2.team then do
      let st' ← setBattleStep compl st
      setBattleLoop compl fuel st'
    else
      some (setRotateOutcome st, st)

/-- The `Battle.rotate_battle` loop (src/battle.py lines 183-214). -/
def rotateBattleLoop (compl : Finset Nat → Rat) :
    Nat → BattleState → Option (Option Winner × BattleState)
  | 0, _ => none
  | fuel+1, st =>
    if !containerIsEmpty st.team1.team && !containerIsEmpty st.team2.team then do
      let st' ← rotateBattleStep compl st
      rotateBattleLoop compl fuel st'
    else
      some (setRotateOutcome st, st)

/-- The `Battle.optimise_battle` loop (src/battle.py lines 239-278):
while both live counts are positive, run one exchange step; on exit
report the terminal outcome on the live counts. -/
def optimiseBattleLoop (compl : Finset Nat → Rat) (criterion : String) :
    Nat → BattleState → Option (Option Winner × BattleState)
  | 0, _ => none
  | fuel+1, st =>
    if 0 < st.team1.team_count && 0 < st.team2.team_count then do
      let st' ← optimiseBattleStep compl criterion st
      optimiseBattleLoop compl criterion fuel st'
    else
      some (optimiseOutcome st, st)

/-- `Battle.commence_battle` (src/battle.py lines 38-78): dispatch on the
battle mode; the returned `Option Winner` is exactly the method's return
value (`winner_team == self.trainer_1` → trainer 1, `== self.trainer_2`
→ trainer 2, otherwise `None`, i.e. a draw). -/
def commenceBattle (compl : Finset Nat → Rat) (criterion : String)
    (battle_mode : BattleMode) (fuel : Nat) (st : BattleState) :
    Option (Option Winner × BattleState) :=
  match battle_mode with
  | .SET => setBattleLoop compl fuel st
  | .ROTATE => rotateBattleLoop compl fuel st
  | .OPTIMISE => optimiseBattleLoop compl criterion fuel st

/-- The result of `Battle.commence_battle` as `BattleTower.next_battle`
compares it: the player's trainer won, the enemy trainer won, or neither
(a draw). -/
inductive TowerResult where
  | myWin
  | enemyWin
  | draw
deriving DecidableEq, Repr

/-- The `BattleTower` state read and written by `next_battle`
(src/tower.py lines 16-23, 40-41, 63-64): the player's remaining lives,
the count of enemy lives taken, and the two parallel circular queues of
enemy trainers (abstracted to identifiers) and enemy life counts.  The
queues' capacity (`num_teams`) is never exceeded because every append
follows a serve. -/
structure TowerState where
  my_trainer_lives : Int
  lives_taken : Int
  enemy_trainers : List Nat
  enemy_lives : List Int
deriving DecidableEq, Repr

/-- `BattleTower.next_battle` (src/tower.py lines 93-131): serve the next
enemy trainer and its life count (an empty queue raises, `none`); the
regeneration of both teams and the ROTATE battle itself (lines 110-114)
are abstracted into the `battle_result` argument.  A player win
decrements the enemy's lives and bumps `lives_taken`; an enemy win
decrements the player's lives; a draw decrements both.  The enemy is
re-appended (with its updated life count) exactly when its updated life
count is positive.  Returns the new state together with the served enemy
and its updated life count (part of the method's return tuple). -/
def nextBattle (battle_result : TowerResult) (st : TowerState) :
    Option (TowerState × Nat × Int) := do
  let (enemy_trainer, ets) ← match st.enemy_trainers with
    | [] => none
    | e :: es => some (e, es)
  let (enemy_lives, els) ← match st.enemy_lives with
    | [] => none
    | l :: ls => some (l, ls)
  let (my_lives, enemy_lives, taken) :=
    match battle_result with
    | .myWin => (st.my_trainer_lives, enemy_lives - 1, st.lives_taken + 1)
    | .enemyWin => (st.my_trainer_lives - 1, enemy_lives, st.lives_taken)
    | .draw => (st.my_trainer_lives - 1, enemy_lives - 1, st.lives_taken)
  let (ets', els') :=
    if 0 < enemy_lives then (ets ++ [enemy_trainer], els ++ [enemy_lives])
    else (ets, els)
  some (⟨my_lives, taken, ets', els'⟩, enemy_trainer, enemy_lives)

/-- Modelled from the spec: the current value of the configured ranking
criterion of a combatant — the comparand used to state what `push`'s
reinsertion key should be (OPTIMISE mode, §4.2 of the spec). -/
def criterionValue (criterion : String) (p : Pokemon) : Int :=
  if criterion = "health" then p.health
  else if criterion = "defence" then p.defence
  else if criterion = "battle_power" then p.battle_power
  else if criterion = "speed" then p.speed
  else if criterion = "level" then p.level
  else 0

/-! ## Helper lemmas -/

/-- With equal unit completion ratios the effective damage is the raw
attack value: `ceil(a * 1 / 1) = a`. -/
theorem effective_damage_one_one (a : Int) : effective_damage a 1 1 = a := by
  simp [effective_damage]

/-- `PokeTeam.push` in OPTIMISE mode with a recognized criterion wraps
the combatant in a `ListItem` keyed by `neg *` its current criterion
stat and inserts it into the sorted list. -/
theorem push_optimise_eq (t : PokeTeam) (p : Pokemon) (criterion : String) (neg : Int)
    (l : List ListItem) (hm : t.battle_mode = .OPTIMISE) (ht : t.team = .sortedList l)
    (hc : criterion ∈ CRITERION_LIST) (hcap : l.length < TEAM_LIMIT) :
    t.push p criterion neg =
      some { t with team := .sortedList (sortedInsert l ⟨p, neg * criterionValue criterion p⟩) } := by
  simp only [CRITERION_LIST, List.mem_cons, List.not_mem_nil, or_false] at hc
  rcases hc with rfl | rfl | rfl | rfl | rfl <;>
    simp [PokeTeam.push, hm, ht, sortedAdd, hcap, criterionValue]

/-- Full characterization of one `optimise_battle` loop iteration on
well-formed OPTIMISE teams: extraction of the two minimum-key pairs,
registration, the exchange, sign-preserving re-keyed reinsertion of
survivors, and count decrements for the dead. -/
theorem optimiseBattleStep_eq (compl : Finset Nat → Rat) (criterion : String)
    (st : BattleState) (item1 item2 : ListItem) (l1 l2 : List ListItem)
    (h1 : st.team1.team = .sortedList (item1 :: l1))
    (h2 : st.team2.team = .sortedList (item2 :: l2))
    (hm1 : st.team1.battle_mode = .OPTIMISE)
    (hm2 : st.team2.battle_mode = .OPTIMISE)
    (hc : criterion ∈ CRITERION_LIST)
    (hcap1 : l1.length < TEAM_LIMIT) (hcap2 : l2.length < TEAM_LIMIT) :
    optimiseBattleStep compl criterion st =
      (let dex1 := registerPokemon st.dex1 item2.value
       let dex2 := registerPokemon st.dex2 item1.value
       let r := battleFn (compl dex1) (compl dex2) item1.value item2.value
       some ⟨{ st.team1 with
                team := .sortedList (if r.p1.is_alive then
                    sortedInsert l1 ⟨r.p1, (if item1.key < 0 then (-1 : Int) else 1) * criterionValue criterion r.p1⟩
                  else l1),
                team_count := if r.p1.is_alive then st.team1.team_count else st.team1.team_count - 1 },
             { st.team2 with
                team := .sortedList (if r.p2.is_alive then
                    sortedInsert l2 ⟨r.p2, (if item2.key < 0 then (-1 : Int) else 1) * criterionValue criterion r.p2⟩
                  else l2),
                team_count := if r.p2.is_alive then st.team2.team_count else st.team2.team_count - 1 },
             dex1, dex2⟩) := by
  simp only [optimiseBattleStep, h1, h2, sortedDeleteAt0]
  set r := battleFn (compl (registerPokemon st.dex1 item2.value))
      (compl (registerPokemon st.dex2 item1.value)) item1.value item2.value with hr
  have hp1n := push_optimise_eq { st.team1 with team := .sortedList l1 } r.p1 criterion (-1) l1
    (by simp [hm1]) rfl hc hcap1
  have hp1p := push_optimise_eq { st.team1 with team := .sortedList l1 } r.p1 criterion 1 l1
    (by simp [hm1]) rfl hc hcap1
  have hp2n := push_optimise_eq { st.team2 with team := .sortedList l2 } r.p2 criterion (-1) l2
    (by simp [hm2]) rfl hc hcap2
  have hp2p := push_optimise_eq { st.team2 with team := .sortedList l2 } r.p2 criterion 1 l2
    (by simp [hm2]) rfl hc hcap2
  by_cases ha1 : r.p1.is_alive = true <;> by_cases ha2 : r.p2.is_alive = true <;>
    by_cases hk1 : item1.key < 0 <;> by_cases hk2 : item2.key < 0 <;>
    simp [ha1, ha2, hk1, hk2, hp1n, hp1p, hp2n, hp2p]

/-- Characterization of the stack-to-stack drain loop: popping `n` slots
pushes them, reversed, onto the destination. -/
theorem popPushN_eq : ∀ (n : Nat) (s d : List Slot), n ≤ s.length →
    d.length + n ≤ TEAM_LIMIT →
    popPushN n s d = some (s.drop n, (s.take n).reverse ++ d)
  | 0, s, d, _, _ => by simp [popPushN]
  | n+1, [], d, h1, _ => by simp at h1
  | n+1, x :: s', d, h1, h2 => by
    have hpush : stackPush d x = some (x :: d) := by
      simp only [stackPush, if_pos (by omega : d.length < TEAM_LIMIT)]
    have ih := popPushN_eq n s' (x :: d) (by simpa using h1) (by simp; omega)
    simp [popPushN, stackPop, hpush, ih, List.reverse_cons, List.append_assoc]

/-- Characterization of the stack-to-queue transfer loop: popping `n`
slots appends them, in popped (reversed-stack) order, to the queue. -/
theorem popAppendN_eq : ∀ (n : Nat) (s q : List Slot), n ≤ s.length →
    q.length + n ≤ TEAM_LIMIT →
    popAppendN n s q = some (s.drop n, q ++ s.take n)
  | 0, s, q, _, _ => by simp [popAppendN]
  | n+1, [], q, h1, _ => by simp at h1
  | n+1, x :: s', q, h1, h2 => by
    have happ : queueAppend TEAM_LIMIT q x = some (q ++ [x]) := by
      simp only [queueAppend, if_pos (by omega : q.length < TEAM_LIMIT)]
    have ih := popAppendN_eq n s' (q ++ [x]) (by simpa using h1) (by simp; omega)
    simp [popAppendN, stackPop, happ, ih, List.append_assoc]

/-- Characterization of the queue-to-stack transfer loop: serving `n`
slots pushes them, reversed, onto the stack. -/
theorem servePushN_eq : ∀ (n : Nat) (q s : List Slot), n ≤ q.length →
    s.length + n ≤ TEAM_LIMIT →
    servePushN n q s = some (q.drop n, (q.take n).reverse ++ s)
  | 0, q, s, _, _ => by simp [servePushN]
  | n+1, [], s, h1, _ => by simp at h1
  | n+1, x :: q', s, h1, h2 => by
    have hpush : stackPush s x = some (x :: s) := by
      simp only [stackPush, if_pos (by omega : s.length < TEAM_LIMIT)]
    have ih := servePushN_eq n q' (x :: s) (by simpa using h1) (by simp; omega)
    simp [servePushN, queueServe, hpush, ih, List.reverse_cons, List.append_assoc]

/-- Characterization of the queue-to-queue transfer loop: serving `n`
slots appends them, in order, to the destination queue. -/
theorem serveAppendN_eq : ∀ (n : Nat) (q d : List Slot), n ≤ q.length →
    d.length + n ≤ TEAM_LIMIT →
    serveAppendN n q d = some (q.drop n, d ++ q.take n)
  | 0, q, d, _, _ => by simp [serveAppendN]
  | n+1, [], d, h1, _ => by simp at h1
  | n+1, x :: q', d, h1, h2 => by
    have happ : queueAppend TEAM_LIMIT d x = some (d ++ [x]) := by
      simp only [queueAppend, if_pos (by omega : d.length < TEAM_LIMIT)]
    have ih := serveAppendN_eq n q' (d ++ [x]) (by simpa using h1) (by simp; omega)
    simp [serveAppendN, queueServe, happ, ih, List.append_assoc]

/-- Characterization of the queue-into-array drain loop: the served
slots are written in order into the array's suffix starting at the write
position. -/
theorem serveIntoArr_eq : ∀ (q pre suf : List Slot), q.length ≤ suf.length →
    serveIntoArr q.length q (pre ++ suf) pre.length =
      some ([], pre ++ q ++ suf.drop q.length)
  | [], pre, suf, _ => by simp [serveIntoArr]
  | x :: q', pre, suf, h => by
    match suf, h with
    | y :: suf', h =>
      have hstep : serveIntoArr (x :: q').length (x :: q') (pre ++ y :: suf') pre.length =
          serveIntoArr q'.length q' ((pre ++ y :: suf').set pre.length x) (pre.length + 1) := rfl
      have hset : (pre ++ y :: suf').set pre.length x = (pre ++ [x]) ++ suf' := by
        rw [List.set_append_right _ _ (Nat.le_refl _)]
        simp
      have hlen : pre.length + 1 = (pre ++ [x]).length := by simp
      have ih := serveIntoArr_eq q' (pre ++ [x]) suf' (by simpa using h)
      rw [hstep, hset, hlen, ih]
      simp [List.append_assoc]

theorem buildQueueFrom_arr_eq : ∀ (n i : Nat) (a acc : List Slot),
    i + n ≤ a.length → acc.length + n ≤ TEAM_LIMIT →
    buildQueueFrom (.arr a) n i acc = some (acc ++ (a.drop i).take n)
  | 0, i, a, acc, _, _ => by simp [buildQueueFrom]
  | n+1, i, a, acc, h1, h2 => by
    have hi : i < a.length := by omega
    have hstep : buildQueueFrom (.arr a) (n+1) i acc =
        (containerIdx (.arr a) i).bind fun x =>
          (queueAppend TEAM_LIMIT acc x).bind fun acc' =>
            buildQueueFrom (.arr a) n (i+1) acc' := rfl
    have hget : containerIdx (.arr a) i = some a[i] := by
      simp [containerIdx, List.get?_eq_getElem?, List.getElem?_eq_getElem hi]
    have happ : queueAppend TEAM_LIMIT acc a[i] = some (acc ++ [a[i]]) := by
      simp only [queueAppend, if_pos (by omega : acc.length < TEAM_LIMIT)]
    have ih := buildQueueFrom_arr_eq n (i+1) a (acc ++ [a[i]]) (by omega) (by simp; omega)
    rw [hstep, hget, Option.some_bind', happ, Option.some_bind', ih]
    rw [List.drop_eq_getElem_cons hi, List.take_succ_cons, List.append_assoc]
    rfl

/-- `sortedInsert` produces a permutation of the new item consed onto the
old list. -/
theorem sortedInsert_perm (l : List ListItem) (x : ListItem) :
    (sortedInsert l x).Perm (x :: l) := by
  induction l with
  | nil => simp [sortedInsert]
  | cons y ys ih =>
    simp only [sortedInsert]
    split
    · exact List.Perm.refl _
    · exact (ih.cons y).trans (List.Perm.swap x y ys)

/-- `sortedInsert` grows the list by exactly one. -/
theorem sortedInsert_length (l : List ListItem) (x : ListItem) :
    (sortedInsert l x).length = l.length + 1 := by
  induction l with
  | nil => simp [sortedInsert]
  | cons y ys ih =>
    simp only [sortedInsert]
    split
    · simp
    · simp [ih]

/-- The OPTIMISE `special` loop succeeds within capacity and its result
is a permutation of the accumulator followed by the negated-key copies
of the source items. -/
theorem specialOptLoop_eq : ∀ (l acc : List ListItem),
    acc.length + l.length ≤ TEAM_LIMIT →
    ∃ temp, specialOptLoop l acc = some temp ∧
      temp.length = acc.length + l.length ∧
      temp.Perm (acc ++ l.map fun x => ⟨x.value, -x.key⟩)
  | [], acc, _ => ⟨acc, by simp [specialOptLoop]⟩
  | x :: xs, acc, h => by
    have hcap : acc.length < TEAM_LIMIT := by
      simp only [List.length_cons] at h
      omega
    have hadd : sortedAdd acc ⟨x.value, -x.key⟩ = some (sortedInsert acc ⟨x.value, -x.key⟩) := by
      simp only [sortedAdd, if_pos hcap]
    have hlen := sortedInsert_length acc ⟨x.value, -x.key⟩
    obtain ⟨temp, h1, h2, h3⟩ := specialOptLoop_eq xs (sortedInsert acc ⟨x.value, -x.key⟩)
      (by simp only [List.length_cons] at h; omega)
    refine ⟨temp, ?_, ?_, ?_⟩
    · simp [specialOptLoop, hadd, h1]
    · simp only [List.length_cons]
      omega
    · refine (h3.trans ((sortedInsert_perm acc _).append_right _)).trans ?_
      simpa using (@List.perm_middle ListItem ⟨x.value, -x.key⟩ acc
        (xs.map fun x => ⟨x.value, -x.key⟩)).symm

/-- A container holding exactly a member list (all slots filled) has
that member list as its observable members. -/
theorem filterMap_id_map_some (ms : List Pokemon) : (ms.map some).filterMap id = ms := by
  induction ms with
  | nil => rfl
  | cons x xs ih => simp [ih]

/-- Empty (`None`) padding contributes no members. -/
theorem filterMap_id_replicate_none (n : Nat) :
    (List.replicate n (none : Slot)).filterMap id = [] := by
  induction n with
  | zero => rfl
  | succ n ih => simp [List.replicate_succ, ih]

/-- Restoring loop of `__getitem__`'s stack branch: popping the drained
prefix back from the temporary stack rebuilds the original stack. -/
theorem popPushN_roundtrip (n : Nat) (s : List Slot) (h1 : n ≤ s.length)
    (h2 : s.length ≤ TEAM_LIMIT) :
    popPushN n ((s.take n).reverse) (s.drop n) = some ([], s) := by
  have hXlen : ((s.take n).reverse).length = n := by simp; omega
  have hmain := popPushN_eq n ((s.take n).reverse) (s.drop n) (by omega) (by simp; omega)
  rw [hmain]
  refine congrArg some (Prod.ext ?_ ?_)
  · simp only []
    rw [List.drop_eq_nil_of_le (by omega)]
  · simp only []
    rw [List.take_of_length_le (by omega), List.reverse_reverse, List.take_append_drop]

/-- `PokeTeam.__getitem__` on a stack-backed team returns the member at
depth `i` from the top and restores the stack exactly. -/
theorem getItem_stack_eq (ms : List Pokemon) (i : Nat) (cnt : Int) (crit : String)
    (bm : BattleMode) (hlen : ms.length ≤ TEAM_LIMIT) (hi : i < ms.length) :
    getItem ⟨.stack (ms.map some), cnt, crit, bm⟩ i =
      some (some ms[i], ⟨.stack (ms.map some), cnt, crit, bm⟩) := by
  have h1 : popPushN (i+1) (ms.map some) [] =
      some ((ms.map some).drop (i+1), ((ms.map some).take (i+1)).reverse) := by
    simpa using popPushN_eq (i+1) (ms.map some) [] (by simpa using hi) (by simp; omega)
  have htake : (ms.map some).take (i+1) = (ms.map some).take i ++ [some ms[i]] := by
    rw [List.take_succ, List.getElem?_eq_getElem (by simpa using hi)]
    simp
  have hpeek : stackPeek (((ms.map some).take (i+1)).reverse) = some (some ms[i]) := by
    rw [htake, List.reverse_append]
    rfl
  have h2 := popPushN_roundtrip (i+1) (ms.map some) (by simpa using hi) (by simpa using hlen)
  simp [getItem, h1, hpeek, h2]

/-- `PokeTeam.__getitem__` on a queue-backed team returns the member at
position `i` and rebuilds the queue as the original member slots padded
with the `ArrayR`'s `None` slots, in ROTATE mode. -/
theorem getItem_queue_eq (ms : List Pokemon) (i : Nat) (cnt : Int) (crit : String)
    (bm : BattleMode) (hlen : ms.length ≤ TEAM_LIMIT) (hi : i < ms.length) :
    getItem ⟨.queue (ms.map some), cnt, crit, bm⟩ i =
      some (some ms[i],
        ⟨.queue (ms.map some ++ List.replicate (TEAM_LIMIT - ms.length) none), cnt, crit, .ROTATE⟩) := by
  have harr : serveIntoArr (ms.map some).length (ms.map some) arrayRNew 0 =
      some ([], ms.map some ++ List.replicate (TEAM_LIMIT - ms.length) none) := by
    have h := serveIntoArr_eq (ms.map some) [] arrayRNew (by simp [arrayRNew]; omega)
    simpa [arrayRNew, List.drop_replicate] using h
  have hget : (ms.map some ++ List.replicate (TEAM_LIMIT - ms.length) none).get? i =
      some (some ms[i]) := by
    rw [List.get?_append (by simpa using hi)]
    simp [List.get?_eq_getElem?, List.getElem?_eq_getElem (by simpa using hi : i < (ms.map some).length)]
  have hsl : (ms.map some ++ List.replicate (TEAM_LIMIT - ms.length) none).length = TEAM_LIMIT := by
    simp; omega
  have hbuild : buildQueueFrom
      (.arr (ms.map some ++ List.replicate (TEAM_LIMIT - ms.length) none))
      (ms.map some ++ List.replicate (TEAM_LIMIT - ms.length) none).length 0 [] =
      some (ms.map some ++ List.replicate (TEAM_LIMIT - ms.length) none) := by
    rw [buildQueueFrom_arr_eq _ 0 _ [] (by omega) (by simp [hsl])]
    simp
  simp only [getItem]
  rw [harr]
  simp only [Option.bind_eq_bind, Option.some_bind', hget, assembleRotate, containerLen,
    hbuild, Option.map_some']

/-- `PokeTeam.__getitem__` on a sorted-list-backed team is a direct
indexed read of the stored pair's combatant, with no state change. -/
theorem getItem_sorted_eq (ms : List Pokemon) (i : Nat) (cnt : Int) (crit : String)
    (bm : BattleMode) (hi : i < ms.length) (l : List ListItem)
    (hml : l.map ListItem.value = ms) :
    getItem ⟨.sortedList l, cnt, crit, bm⟩ i =
      some (some ms[i], ⟨.sortedList l, cnt, crit, bm⟩) := by
  subst hml
  have hil : i < l.length := by simpa using hi
  simp [getItem, List.get?_eq_getElem?, List.getElem?_eq_getElem hil]

/-! ## Claim theorems -/

/-- C1: refuted on the code (code slip).  In the equal-speed branch of
`Battle.battle` the second assignment `attack_point = Pokemon_2.attack(
Pokemon_1)` (src/battle.py line 337) overwrites combatant 1's attack
value computed on line 336, so BOTH effective damages are computed from
combatant 2's attack value — contradicting the claim (and the function's
own docstring, which says `effective_damage_Pokemon_1` is the damage
caused by Pokemon_1's attack).  Concretely: equal speeds, attack values
5 (combatant 1) and 3 (combatant 2), completions 1 and 1, healths 10.
The claim demands that combatant 2 take `ceil(5*1/1) = 5` damage, ending
the attack steps at health 5; the code deals `ceil(3*1/1) = 3` to both
sides, leaving both at health 7. -/
theorem C1_equal_speed_damage_uses_p2_attack :
    (battle_attack_phase 1 1 ⟨10, 1, 4, 5, 2, 0⟩ ⟨10, 1, 4, 3, 2, 0⟩).2.health = 10 - 3 ∧
    (battle_attack_phase 1 1 ⟨10, 1, 4, 5, 2, 0⟩ ⟨10, 1, 4, 3, 2, 0⟩).2.health ≠ 10 - 5 ∧
    (battle_attack_phase 1 1 ⟨10, 1, 4, 5, 2, 0⟩ ⟨10, 1, 4, 3, 2, 0⟩).1.health = 10 - 3 := by
  refine ⟨?_, ?_, ?_⟩ <;>
    simp [battle_attack_phase, Pokemon.attack, Pokemon.defend, Pokemon.is_alive,
      effective_damage_one_one]

/-- C2: refuted on the code (code slip).  When both combatants are dead
after the attack steps, the final `else` of `Battle.battle`
(src/battle.py lines 351-359) still runs: both healths are decremented
again (although the docstring reserves this for the case where both
healths are positive) and, since combatant 1 is dead, the dead combatant
2's `level_up` IS invoked (line 356) — contradicting the claim that
neither side levels up on a double faint.  Concretely: equal speeds,
attack values 20 each, healths 3, completions 1 and 1: both reach health
-17 in the attack steps, the grind pushes both to -18, and combatant 2
is levelled from 1 to 2 while dead. -/
theorem C2_double_faint_invokes_level_up :
    (battleFn 1 1 ⟨3, 1, 4, 20, 2, 0⟩ ⟨3, 1, 4, 20, 2, 0⟩).p1.is_alive = false ∧
    (battleFn 1 1 ⟨3, 1, 4, 20, 2, 0⟩ ⟨3, 1, 4, 20, 2, 0⟩).p2.is_alive = false ∧
    (battleFn 1 1 ⟨3, 1, 4, 20, 2, 0⟩ ⟨3, 1, 4, 20, 2, 0⟩).leveled_2 = true ∧
    (battleFn 1 1 ⟨3, 1, 4, 20, 2, 0⟩ ⟨3, 1, 4, 20, 2, 0⟩).leveled_1 = false ∧
    (battleFn 1 1 ⟨3, 1, 4, 20, 2, 0⟩ ⟨3, 1, 4, 20, 2, 0⟩).p2.level = 2 ∧
    (battleFn 1 1 ⟨3, 1, 4, 20, 2, 0⟩ ⟨3, 1, 4, 20, 2, 0⟩).p1.health = -18 := by
  refine ⟨?_, ?_, ?_, ?_, ?_, ?_⟩ <;>
    simp [battleFn, battle_attack_phase, battle_level_phase, Pokemon.attack,
      Pokemon.defend, Pokemon.is_alive, Pokemon.level_up, effective_damage_one_one]

/-- C7: confirmed.  In every combat exchange with strictly unequal
speeds, the strictly faster combatant attacks first (the slower one's
health drops by `ceil(attack value × attacker completion / defender
completion)` computed from pre-exchange values), and the slower one
counter-attacks — with the same ceil formula in the reverse direction —
exactly when it is still alive after that first attack
(src/battle.py lines 315-333). -/
theorem C7_faster_attacks_first (c1 c2 : Rat) (p1 p2 : Pokemon) :
    (p2.speed < p1.speed →
      battle_attack_phase c1 c2 p1 p2 =
        (let defender : Pokemon :=
          { p2 with health := p2.health - ⌈(p1.battle_power : Rat) * c1 / c2⌉ }
         if 0 < defender.health then
           ({ p1 with health := p1.health - ⌈(p2.battle_power : Rat) * c2 / c1⌉ }, defender)
         else
           (p1, defender))) ∧
    (p1.speed < p2.speed →
      battle_attack_phase c1 c2 p1 p2 =
        (let defender : Pokemon :=
          { p1 with health := p1.health - ⌈(p2.battle_power : Rat) * c2 / c1⌉ }
         if 0 < defender.health then
           (defender, { p2 with health := p2.health - ⌈(p1.battle_power : Rat) * c1 / c2⌉ })
         else
           (defender, p2))) := by
  constructor
  · intro h
    have h1 : p1.speed > p2.speed := h
    simp only [battle_attack_phase, if_pos h1, Pokemon.attack, Pokemon.defend,
      Pokemon.is_alive, effective_damage, decide_eq_true_eq]
  · intro h
    have h1 : ¬ p1.speed > p2.speed := by omega
    simp only [battle_attack_phase, if_neg h1, if_pos h, Pokemon.attack, Pokemon.defend,
      Pokemon.is_alive, effective_damage, decide_eq_true_eq]

/-- Witness for C7 at a concrete input (speeds 9 > 4, attack values 5
and 3, completions 1 and 1; the defender survives and counters). -/
theorem C7_faster_attacks_first_witness :
    battle_attack_phase 1 1 ⟨10, 1, 9, 5, 2, 0⟩ ⟨10, 1, 4, 3, 2, 0⟩ =
      (⟨7, 1, 9, 5, 2, 0⟩, ⟨5, 1, 4, 3, 2, 0⟩) := by
  rw [(C7_faster_attacks_first 1 1 ⟨10, 1, 9, 5, 2, 0⟩ ⟨10, 1, 4, 3, 2, 0⟩).1 (by decide)]
  norm_num

/-- C8: confirmed.  In `BattleTower.next_battle`, when the player wins
(the challenger loses): the challenger's life count is decremented by
one, `lives_taken` is bumped, and the challenger (with its decremented
life count) is re-appended to the tails of the two queues exactly when
the decremented count is still positive — so a one-life challenger is
removed permanently and a two-life challenger is requeued with one life
(src/tower.py lines 107-131). -/
theorem C8_tower_loss_requeue (st : TowerState) (e : Nat) (l : Int)
    (es : List Nat) (ls : List Int)
    (he : st.enemy_trainers = e :: es) (hl : st.enemy_lives = l :: ls) :
    nextBattle .myWin st =
      some (⟨st.my_trainer_lives, st.lives_taken + 1,
             if 0 < l - 1 then es ++ [e] else es,
             if 0 < l - 1 then ls ++ [l - 1] else ls⟩, e, l - 1) := by
  by_cases hc : 0 < l - 1
  · have hc2 : 1 < l := by omega
    simp [nextBattle, he, hl, hc, hc2]
  · have hc2 : ¬ 1 < l := by omega
    simp [nextBattle, he, hl, hc, hc2]

/-- Witness for C8: a two-life challenger at the head of the queue loses
and is requeued at the tail with one life. -/
theorem C8_tower_loss_requeue_witness :
    nextBattle .myWin ⟨3, 0, [7, 8], [2, 1]⟩ =
      some (⟨3, 1, [8, 7], [1, 1]⟩, 7, 1) := by
  rw [C8_tower_loss_requeue ⟨3, 0, [7, 8], [2, 1]⟩ 7 2 [8] [1] rfl rfl]
  rfl

/-- C10: confirmed.  In `BattleTower.next_battle`, a drawn battle
decrements both the player's life count and the served enemy's life
count by one, and the enemy is re-appended to the queue tails exactly
when its decremented life count is still positive
(src/tower.py lines 116-131). -/
theorem C10_tower_draw_decrements_both (st : TowerState) (e : Nat) (l : Int)
    (es : List Nat) (ls : List Int)
    (he : st.enemy_trainers = e :: es) (hl : st.enemy_lives = l :: ls) :
    nextBattle .draw st =
      some (⟨st.my_trainer_lives - 1, st.lives_taken,
             if 0 < l - 1 then es ++ [e] else es,
             if 0 < l - 1 then ls ++ [l - 1] else ls⟩, e, l - 1) := by
  by_cases hc : 0 < l - 1
  · have hc2 : 1 < l := by omega
    simp [nextBattle, he, hl, hc, hc2]
  · have hc2 : ¬ 1 < l := by omega
    simp [nextBattle, he, hl, hc, hc2]

/-- Witness for C10: a draw against a one-life enemy costs the player a
life and removes the enemy from the queue. -/
theorem C10_tower_draw_decrements_both_witness :
    nextBattle .draw ⟨2, 5, [9], [1]⟩ = some (⟨1, 5, [], []⟩, 9, 0) := by
  rw [C10_tower_draw_decrements_both ⟨2, 5, [9], [1]⟩ 9 1 [] [] rfl rfl]
  rfl

/-- C9: confirmed.  `assemble_team(OPTIMISE)` hands the team's configured
criterion to `assign_team`; with a criterion outside
`CRITERION_LIST`, `assign_team` only prints a message, adds nothing to
the freshly created sorted list, and still executes
`self.team = new_pokemon_team` — so the container is replaced by an
empty sorted list, `team_count` is untouched, and no exception is raised
(src/poke_team.py lines 138-180, 212-213). -/
theorem C9_invalid_criterion_empties_container (t : PokeTeam)
    (h : t.criterion ∉ CRITERION_LIST) :
    assembleTeam t .OPTIMISE =
      some { t with battle_mode := .OPTIMISE, team := .sortedList [] } := by
  simp only [CRITERION_LIST, List.mem_cons, List.not_mem_nil, or_false] at h
  push_neg at h
  obtain ⟨h1, h2, h3, h4, h5⟩ := h
  simp [assembleTeam, assignTeam, h1, h2, h3, h4, h5]

/-- Witness for C9: a team configured with the unrecognized criterion
"attack" loses its stored member but keeps its count. -/
theorem C9_invalid_criterion_empties_container_witness :
    assembleTeam ⟨.arr [some ⟨5, 1, 4, 3, 2, 0⟩], 1, "attack", .ROTATE⟩ .OPTIMISE =
      some ⟨.sortedList [], 1, "attack", .OPTIMISE⟩ := by
  rw [C9_invalid_criterion_empties_container ⟨.arr [some ⟨5, 1, 4, 3, 2, 0⟩], 1, "attack", .ROTATE⟩
    (by decide)]

/-- C4: confirmed.  In an OPTIMISE-mode exchange, every surviving
combatant is reinserted with a priority key computed from its CURRENT
(post-exchange) value of the configured criterion, with the sign of the
key it was extracted with preserved: an entry extracted with a negative
key is reinserted keyed by the negated current criterion value, an entry
extracted with a non-negative key by the positive current criterion
value (src/battle.py lines 251-263 together with `PokeTeam.push`,
src/poke_team.py lines 385-401). -/
theorem C4_optimise_reinsert_rekeys (compl : Finset Nat → Rat) (criterion : String)
    (st : BattleState) (item1 item2 : ListItem) (l1 l2 : List ListItem)
    (h1 : st.team1.team = .sortedList (item1 :: l1))
    (h2 : st.team2.team = .sortedList (item2 :: l2))
    (hm1 : st.team1.battle_mode = .OPTIMISE)
    (hm2 : st.team2.battle_mode = .OPTIMISE)
    (hc : criterion ∈ CRITERION_LIST)
    (hcap1 : l1.length < TEAM_LIMIT) (hcap2 : l2.length < TEAM_LIMIT) :
    ∃ st', optimiseBattleStep compl criterion st = some st' ∧
      (let r := battleFn (compl (registerPokemon st.dex1 item2.value))
                         (compl (registerPokemon st.dex2 item1.value))
                         item1.value item2.value
       (r.p1.is_alive = true →
         st'.team1.team = .sortedList (sortedInsert l1
           ⟨r.p1, (if item1.key < 0 then (-1 : Int) else 1) * criterionValue criterion r.p1⟩)) ∧
       (r.p2.is_alive = true →
         st'.team2.team = .sortedList (sortedInsert l2
           ⟨r.p2, (if item2.key < 0 then (-1 : Int) else 1) * criterionValue criterion r.p2⟩))) := by
  rw [optimiseBattleStep_eq compl criterion st item1 item2 l1 l2 h1 h2 hm1 hm2 hc hcap1 hcap2]
  exact ⟨_, rfl, fun ha1 => by simp [ha1], fun ha2 => by simp [ha2]⟩

/-- Witness for C4: criterion "health"; combatant 1 (health 9) was
extracted with key -9, combatant 2 (health 8) with key 8; both survive
the exchange at healths 6 and 5 and are reinserted keyed -6 and 5. -/
theorem C4_optimise_reinsert_rekeys_witness :
    ∃ st', optimiseBattleStep (fun _ => 1) "health"
        ⟨⟨.sortedList [⟨⟨9, 1, 4, 2, 2, 0⟩, -9⟩], 1, "health", .OPTIMISE⟩,
         ⟨.sortedList [⟨⟨8, 1, 4, 2, 2, 0⟩, 8⟩], 1, "health", .OPTIMISE⟩, ∅, ∅⟩ = some st' ∧
      (let r := battleFn ((fun _ => (1 : Rat)) (registerPokemon ∅ ⟨8, 1, 4, 2, 2, 0⟩))
                         ((fun _ => (1 : Rat)) (registerPokemon ∅ ⟨9, 1, 4, 2, 2, 0⟩))
                         ⟨9, 1, 4, 2, 2, 0⟩ ⟨8, 1, 4, 2, 2, 0⟩
       (r.p1.is_alive = true →
         st'.team1.team = .sortedList (sortedInsert []
           ⟨r.p1, (if (-9 : Int) < 0 then (-1 : Int) else 1) * criterionValue "health" r.p1⟩)) ∧
       (r.p2.is_alive = true →
         st'.team2.team = .sortedList (sortedInsert []
           ⟨r.p2, (if (8 : Int) < 0 then (-1 : Int) else 1) * criterionValue "health" r.p2⟩))) :=
  C4_optimise_reinsert_rekeys (fun _ => 1) "health"
    ⟨⟨.sortedList [⟨⟨9, 1, 4, 2, 2, 0⟩, -9⟩], 1, "health", .OPTIMISE⟩,
     ⟨.sortedList [⟨⟨8, 1, 4, 2, 2, 0⟩, 8⟩], 1, "health", .OPTIMISE⟩, ∅, ∅⟩
    ⟨⟨9, 1, 4, 2, 2, 0⟩, -9⟩ ⟨⟨8, 1, 4, 2, 2, 0⟩, 8⟩ [] []
    rfl rfl rfl rfl (by decide) (by decide) (by decide)

/-- C3: confirmed.  For a team in each of the three modes holding member
list `ms` and any valid index `i < ms.length`, the indexed read
`team[i]` returns the member at position `i` and preserves the
externally observable member sequence (hence its order and multiset):
the stack is drained and restored exactly; the queue is drained into an
`ArrayR` and rebuilt (in ROTATE mode, with the array's `None` padding
physically appended, which leaves the member sequence itself unchanged);
the sorted list is read in place (src/poke_team.py lines 277-324). -/
theorem C3_indexed_read_nondestructive (ms : List Pokemon) (i : Nat) (cnt : Int)
    (crit : String) (bm : BattleMode)
    (hlen : ms.length ≤ TEAM_LIMIT) (hi : i < ms.length) :
    (getItem ⟨.stack (ms.map some), cnt, crit, bm⟩ i =
       some (some ms[i], ⟨.stack (ms.map some), cnt, crit, bm⟩)) ∧
    (∃ t', getItem ⟨.queue (ms.map some), cnt, crit, bm⟩ i =
       some (some ms[i], t') ∧ containerMembers t'.team = ms ∧ t'.team_count = cnt) ∧
    (∀ l : List ListItem, l.map ListItem.value = ms →
       getItem ⟨.sortedList l, cnt, crit, bm⟩ i =
         some (some ms[i], ⟨.sortedList l, cnt, crit, bm⟩)) := by
  refine ⟨getItem_stack_eq ms i cnt crit bm hlen hi,
    ⟨_, getItem_queue_eq ms i cnt crit bm hlen hi, ?_, rfl⟩,
    fun l hml => getItem_sorted_eq ms i cnt crit bm hi l hml⟩
  simp [containerMembers, List.filterMap_append, filterMap_id_map_some,
    filterMap_id_replicate_none]

/-- Witness for C3 on a concrete two-member team in each mode. -/
theorem C3_indexed_read_nondestructive_witness :
    (getItem ⟨.stack [some ⟨4, 1, 1, 1, 1, 0⟩, some ⟨7, 1, 2, 2, 2, 1⟩], 2, "health", .SET⟩ 1 =
       some (some ⟨7, 1, 2, 2, 2, 1⟩,
         ⟨.stack [some ⟨4, 1, 1, 1, 1, 0⟩, some ⟨7, 1, 2, 2, 2, 1⟩], 2, "health", .SET⟩)) ∧
    (∃ t', getItem ⟨.queue [some ⟨4, 1, 1, 1, 1, 0⟩, some ⟨7, 1, 2, 2, 2, 1⟩], 2, "health", .ROTATE⟩ 1 =
       some (some ⟨7, 1, 2, 2, 2, 1⟩, t') ∧
       containerMembers t'.team = [⟨4, 1, 1, 1, 1, 0⟩, ⟨7, 1, 2, 2, 2, 1⟩] ∧ t'.team_count = 2) ∧
    (getItem ⟨.sortedList [⟨⟨4, 1, 1, 1, 1, 0⟩, 4⟩, ⟨⟨7, 1, 2, 2, 2, 1⟩, 7⟩], 2, "health", .OPTIMISE⟩ 1 =
       some (some ⟨7, 1, 2, 2, 2, 1⟩,
         ⟨.sortedList [⟨⟨4, 1, 1, 1, 1, 0⟩, 4⟩, ⟨⟨7, 1, 2, 2, 2, 1⟩, 7⟩], 2, "health", .OPTIMISE⟩)) := by
  obtain ⟨hs, -, -⟩ := C3_indexed_read_nondestructive
    [⟨4, 1, 1, 1, 1, 0⟩, ⟨7, 1, 2, 2, 2, 1⟩] 1 2 "health" .SET (by decide) (by decide)
  obtain ⟨-, hq, -⟩ := C3_indexed_read_nondestructive
    [⟨4, 1, 1, 1, 1, 0⟩, ⟨7, 1, 2, 2, 2, 1⟩] 1 2 "health" .ROTATE (by decide) (by decide)
  obtain ⟨-, -, hl⟩ := C3_indexed_read_nondestructive
    [⟨4, 1, 1, 1, 1, 0⟩, ⟨7, 1, 2, 2, 2, 1⟩] 1 2 "health" .OPTIMISE (by decide) (by decide)
  exact ⟨hs, hq, hl [⟨⟨4, 1, 1, 1, 1, 0⟩, 4⟩, ⟨⟨7, 1, 2, 2, 2, 1⟩, 7⟩] rfl⟩

/-- C5: confirmed.  `special` preserves the multiset of stored members in
every mode: SET reverses the drained top half of the stack, ROTATE
rotates the front half behind the reversed back half, OPTIMISE rebuilds
with negated keys — all pure reorderings / re-keyings with no member
lost or duplicated (src/poke_team.py lines 218-275). -/
theorem C5_special_preserves_multiset (t : PokeTeam)
    (hcap : containerLen t.team ≤ TEAM_LIMIT) :
    (∀ s, t.team = .stack s →
      ∃ t', special t .SET = some t' ∧
        (containerMembers t'.team : Multiset Pokemon) = (containerMembers t.team : Multiset Pokemon)) ∧
    (∀ q, t.team = .queue q →
      ∃ t', special t .ROTATE = some t' ∧
        (containerMembers t'.team : Multiset Pokemon) = (containerMembers t.team : Multiset Pokemon)) ∧
    (∀ l, t.team = .sortedList l →
      ∃ t', special t .OPTIMISE = some t' ∧
        (containerMembers t'.team : Multiset Pokemon) = (containerMembers t.team : Multiset Pokemon)) := by
  obtain ⟨tc, cnt, crit, bm⟩ := t
  refine ⟨?_, ?_, ?_⟩
  · rintro s rfl
    simp only [containerLen] at hcap
    have h1 : popAppendN (s.length / 2) s [] =
        some (s.drop (s.length / 2), s.take (s.length / 2)) := by
      simpa using popAppendN_eq (s.length / 2) s [] (by omega) (by simp; omega)
    have e1 : (s.take (s.length / 2)).drop (s.length / 2) = [] :=
      List.drop_eq_nil_of_le (by rw [List.length_take]; omega)
    have e2 : (s.take (s.length / 2)).take (s.length / 2) = s.take (s.length / 2) :=
      List.take_of_length_le (by rw [List.length_take]; omega)
    have h2 : servePushN (s.length / 2) (s.take (s.length / 2)) (s.drop (s.length / 2)) =
        some ([], (s.take (s.length / 2)).reverse ++ s.drop (s.length / 2)) := by
      rw [servePushN_eq (s.length / 2) (s.take (s.length / 2)) (s.drop (s.length / 2))
        (by rw [List.length_take]; omega) (by rw [List.length_drop]; omega)]
      rw [e1, e2]
    refine ⟨⟨.stack ((s.take (s.length / 2)).reverse ++ s.drop (s.length / 2)), cnt, crit, bm⟩, ?_, ?_⟩
    · simp [special, h1, h2]
    · simp only [containerMembers]
      rw [Multiset.coe_eq_coe]
      exact ((((s.take (s.length / 2)).reverse_perm.append_right _).trans
        (by rw [List.take_append_drop])).filterMap id)
  · rintro q rfl
    simp only [containerLen] at hcap
    have h1 : serveAppendN (q.length / 2) q [] =
        some (q.drop (q.length / 2), q.take (q.length / 2)) := by
      simpa using serveAppendN_eq (q.length / 2) q [] (by omega) (by simp; omega)
    have e1 : (q.drop (q.length / 2)).drop (q.length - q.length / 2) = [] :=
      List.drop_eq_nil_of_le (by rw [List.length_drop])
    have e2 : (q.drop (q.length / 2)).take (q.length - q.length / 2) = q.drop (q.length / 2) :=
      List.take_of_length_le (by rw [List.length_drop])
    have e3 : ((q.drop (q.length / 2)).reverse).drop (q.length - q.length / 2) = [] :=
      List.drop_eq_nil_of_le (by rw [List.length_reverse, List.length_drop])
    have e4 : ((q.drop (q.length / 2)).reverse).take (q.length - q.length / 2) =
        (q.drop (q.length / 2)).reverse :=
      List.take_of_length_le (by rw [List.length_reverse, List.length_drop])
    have h2 : servePushN (q.length - q.length / 2) (q.drop (q.length / 2)) [] =
        some ([], (q.drop (q.length / 2)).reverse) := by
      rw [servePushN_eq (q.length - q.length / 2) (q.drop (q.length / 2)) []
        (by rw [List.length_drop]) (by simp only [List.length_nil]; omega)]
      rw [e1, e2, List.append_nil]
    have h3 : popAppendN (q.length - q.length / 2) ((q.drop (q.length / 2)).reverse)
        (q.take (q.length / 2)) =
        some ([], q.take (q.length / 2) ++ (q.drop (q.length / 2)).reverse) := by
      rw [popAppendN_eq (q.length - q.length / 2) ((q.drop (q.length / 2)).reverse)
        (q.take (q.length / 2)) (by rw [List.length_reverse, List.length_drop])
        (by rw [List.length_take]; omega)]
      rw [e3, e4]
    refine ⟨⟨.queue (q.take (q.length / 2) ++ (q.drop (q.length / 2)).reverse), cnt, crit, bm⟩, ?_, ?_⟩
    · simp [special, h1, h2, h3]
    · simp only [containerMembers]
      rw [Multiset.coe_eq_coe]
      exact (((List.Perm.append_left _ (q.drop (q.length / 2)).reverse_perm).trans
        (by rw [List.take_append_drop])).filterMap id)
  · rintro l rfl
    simp only [containerLen] at hcap
    obtain ⟨temp, h1, h2, h3⟩ := specialOptLoop_eq l [] (by simpa using hcap)
    refine ⟨⟨.sortedList temp, cnt, crit, bm⟩, ?_, ?_⟩
    · simp [special, h1]
    · simp only [containerMembers]
      rw [Multiset.coe_eq_coe]
      have hm := h3.map ListItem.value
      simpa [Function.comp] using hm

/-- Witness for C5 on concrete three-member teams in each mode. -/
theorem C5_special_preserves_multiset_witness :
    (∃ t', special ⟨.stack [some ⟨1, 1, 1, 1, 1, 0⟩, some ⟨2, 1, 2, 2, 2, 1⟩, some ⟨3, 1, 3, 3, 3, 2⟩], 3, "health", .SET⟩ .SET = some t' ∧
      (containerMembers t'.team : Multiset Pokemon) =
        (containerMembers (.stack [some ⟨1, 1, 1, 1, 1, 0⟩, some ⟨2, 1, 2, 2, 2, 1⟩, some ⟨3, 1, 3, 3, 3, 2⟩]) : Multiset Pokemon)) ∧
    (∃ t', special ⟨.queue [some ⟨1, 1, 1, 1, 1, 0⟩, some ⟨2, 1, 2, 2, 2, 1⟩, some ⟨3, 1, 3, 3, 3, 2⟩], 3, "health", .ROTATE⟩ .ROTATE = some t' ∧
      (containerMembers t'.team : Multiset Pokemon) =
        (containerMembers (.queue [some ⟨1, 1, 1, 1, 1, 0⟩, some ⟨2, 1, 2, 2, 2, 1⟩, some ⟨3, 1, 3, 3, 3, 2⟩]) : Multiset Pokemon)) ∧
    (∃ t', special ⟨.sortedList [⟨⟨1, 1, 1, 1, 1, 0⟩, 1⟩, ⟨⟨2, 1, 2, 2, 2, 1⟩, 2⟩], 2, "health", .OPTIMISE⟩ .OPTIMISE = some t' ∧
      (containerMembers t'.team : Multiset Pokemon) =
        (containerMembers (.sortedList [⟨⟨1, 1, 1, 1, 1, 0⟩, 1⟩, ⟨⟨2, 1, 2, 2, 2, 1⟩, 2⟩]) : Multiset Pokemon)) := by
  obtain ⟨hs, -, -⟩ := C5_special_preserves_multiset
    ⟨.stack [some ⟨1, 1, 1, 1, 1, 0⟩, some ⟨2, 1, 2, 2, 2, 1⟩, some ⟨3, 1, 3, 3, 3, 2⟩], 3, "health", .SET⟩ (by decide)
  obtain ⟨-, hq, -⟩ := C5_special_preserves_multiset
    ⟨.queue [some ⟨1, 1, 1, 1, 1, 0⟩, some ⟨2, 1, 2, 2, 2, 1⟩, some ⟨3, 1, 3, 3, 3, 2⟩], 3, "health", .ROTATE⟩ (by decide)
  obtain ⟨-, -, hl⟩ := C5_special_preserves_multiset
    ⟨.sortedList [⟨⟨1, 1, 1, 1, 1, 0⟩, 1⟩, ⟨⟨2, 1, 2, 2, 2, 1⟩, 2⟩], 2, "health", .OPTIMISE⟩ (by decide)
  exact ⟨hs _ rfl, hq _ rfl, hl _ rfl⟩

end PocketMonstersProof

namespace PocketMonstersProof

/-- The emptiness test each battle method's terminal clause uses:
`set_battle`/`rotate_battle` test the container (`team.is_empty()` on
the stack/queue), `optimise_battle` tests the live count
(`PokeTeam.is_empty`). -/
def battleTeamEmpty (mode : BattleMode) (t : PokeTeam) : Bool :=
  match mode with
  | .OPTIMISE => t.is_empty
  | _ => containerIsEmpty t.team

/-- When the `set_battle` loop returns, the winner is the terminal
clause's value on the final state, and at least one container is
empty. -/
theorem setBattleLoop_exit (compl : Finset Nat → Rat) :
    ∀ (fuel : Nat) (st : BattleState) (w : Option Winner) (st' : BattleState),
    setBattleLoop compl fuel st = some (w, st') →
    w = setRotateOutcome st' ∧
      (containerIsEmpty st'.team1.team || containerIsEmpty st'.team2.team) = true
  | 0, st, w, st', h => by simp [setBattleLoop] at h
  | fuel+1, st, w, st', h => by
    by_cases hg : (!containerIsEmpty st.team1.team && !containerIsEmpty st.team2.team) = true
    · rw [setBattleLoop, if_pos hg] at h
      cases hstep : setBattleStep compl st with
      | none => rw [hstep] at h; simp at h
      | some st1 =>
        rw [hstep] at h
        simp only [Option.bind_eq_bind, Option.some_bind'] at h
        exact setBattleLoop_exit compl fuel st1 w st' h
    · rw [setBattleLoop, if_neg hg] at h
      simp only [Option.some.injEq, Prod.mk.injEq] at h
      obtain ⟨hw, hst⟩ := h
      subst hst
      refine ⟨hw.symm, ?_⟩
      cases e1 : containerIsEmpty st.team1.team <;>
        cases e2 : containerIsEmpty st.team2.team <;> simp_all

/-- When the `rotate_battle` loop returns, the winner is the terminal
clause's value on the final state, and at least one container is
empty. -/
theorem rotateBattleLoop_exit (compl : Finset Nat → Rat) :
    ∀ (fuel : Nat) (st : BattleState) (w : Option Winner) (st' : BattleState),
    rotateBattleLoop compl fuel st = some (w, st') →
    w = setRotateOutcome st' ∧
      (containerIsEmpty st'.team1.team || containerIsEmpty st'.team2.team) = true
  | 0, st, w, st', h => by simp [rotateBattleLoop] at h
  | fuel+1, st, w, st', h => by
    by_cases hg : (!containerIsEmpty st.team1.team && !containerIsEmpty st.team2.team) = true
    · rw [rotateBattleLoop, if_pos hg] at h
      cases hstep : rotateBattleStep compl st with
      | none => rw [hstep] at h; simp at h
      | some st1 =>
        rw [hstep] at h
        simp only [Option.bind_eq_bind, Option.some_bind'] at h
        exact rotateBattleLoop_exit compl fuel st1 w st' h
    · rw [rotateBattleLoop, if_neg hg] at h
      simp only [Option.some.injEq, Prod.mk.injEq] at h
      obtain ⟨hw, hst⟩ := h
      subst hst
      refine ⟨hw.symm, ?_⟩
      cases e1 : containerIsEmpty st.team1.team <;>
        cases e2 : containerIsEmpty st.team2.team <;> simp_all

/-- `PokeTeam.push` reinserts into the container and never changes the
live count. -/
theorem push_team_count (t : PokeTeam) (p : Pokemon) (criterion : String) (neg : Int)
    (t' : PokeTeam) (h : t.push p criterion neg = some t') :
    t'.team_count = t.team_count := by
  unfold PokeTeam.push at h
  repeat' split at h
  all_goals first
    | (obtain ⟨x, hx, rfl⟩ := Option.map_eq_some'.mp h; rfl)
    | simp at h

/-- One `optimise_battle` iteration changes each live count by at most
one, downward. -/
theorem optimiseBattleStep_counts (compl : Finset Nat → Rat) (criterion : String)
    (st st' : BattleState) (h : optimiseBattleStep compl criterion st = some st') :
    (st.team1.team_count - 1 ≤ st'.team1.team_count ∧
      st'.team1.team_count ≤ st.team1.team_count) ∧
    (st.team2.team_count - 1 ≤ st'.team2.team_count ∧
      st'.team2.team_count ≤ st.team2.team_count) := by
  unfold optimiseBattleStep at h
  split at h
  · rename_i l1 l2 heq1 heq2
    cases l1 with
    | nil => simp [sortedDeleteAt0] at h
    | cons i1 r1 =>
      cases l2 with
      | nil => simp [sortedDeleteAt0] at h
      | cons i2 r2 =>
        simp only [sortedDeleteAt0, Option.bind_eq_bind, Option.some_bind'] at h
        set r := battleFn (compl (registerPokemon st.dex1 i2.value))
          (compl (registerPokemon st.dex2 i1.value)) i1.value i2.value with hr
        by_cases c1 : r.p1.is_alive = true <;> by_cases c2 : r.p2.is_alive = true <;>
          by_cases k1 : i1.key < 0 <;> by_cases k2 : i2.key < 0 <;>
          simp only [c1, c2, k1, k2, if_true, if_false, ite_true, ite_false,
            Bool.not_true, Bool.not_false, Bool.false_eq_true, Bool.true_eq_false,
            eq_self_iff_true, not_true, not_false_iff, Option.pure_def,
            Option.some_bind'] at h <;>
        first
          | (obtain ⟨a, ha, h⟩ := Option.bind_eq_some.mp h
             obtain ⟨b, hb, h⟩ := Option.bind_eq_some.mp h
             have hca := push_team_count _ _ _ _ _ ha
             have hcb := push_team_count _ _ _ _ _ hb
             have hst := Option.some.inj h
             subst hst
             refine ⟨⟨?_, ?_⟩, ?_, ?_⟩ <;> simp_all <;> omega)
          | (obtain ⟨a, ha, h⟩ := Option.bind_eq_some.mp h
             have hca := push_team_count _ _ _ _ _ ha
             have hst := Option.some.inj h
             subst hst
             refine ⟨⟨?_, ?_⟩, ?_, ?_⟩ <;> simp_all <;> omega)
          | (have hst := Option.some.inj h
             subst hst
             refine ⟨⟨?_, ?_⟩, ?_, ?_⟩ <;> simp_all <;> omega)
  · exact absurd h (by simp)

/-- When the `optimise_battle` loop returns from a state with
nonnegative live counts, the winner is the terminal clause's value on
the final state, at least one live count is not positive, and the
counts stay nonnegative. -/
theorem optimiseBattleLoop_exit (compl : Finset Nat → Rat) (criterion : String) :
    ∀ (fuel : Nat) (st : BattleState) (w : Option Winner) (st' : BattleState),
    0 ≤ st.team1.team_count → 0 ≤ st.team2.team_count →
    optimiseBattleLoop compl criterion fuel st = some (w, st') →
    w = optimiseOutcome st' ∧ ¬ (0 < st'.team1.team_count ∧ 0 < st'.team2.team_count) ∧
      0 ≤ st'.team1.team_count ∧ 0 ≤ st'.team2.team_count
  | 0, st, w, st', _, _, h => by simp [optimiseBattleLoop] at h
  | fuel+1, st, w, st', hn1, hn2, h => by
    by_cases hg : (decide (0 < st.team1.team_count) && decide (0 < st.team2.team_count)) = true
    · rw [optimiseBattleLoop, if_pos hg] at h
      cases hstep : optimiseBattleStep compl criterion st with
      | none => rw [hstep] at h; simp at h
      | some st1 =>
        rw [hstep] at h
        simp only [Option.bind_eq_bind, Option.some_bind'] at h
        obtain ⟨⟨hb1, -⟩, ⟨hb2, -⟩⟩ := optimiseBattleStep_counts compl criterion st st1 hstep
        simp only [Bool.and_eq_true, decide_eq_true_eq] at hg
        exact optimiseBattleLoop_exit compl criterion fuel st1 w st'
          (by omega) (by omega) h
    · rw [optimiseBattleLoop, if_neg hg] at h
      simp only [Option.some.injEq, Prod.mk.injEq] at h
      obtain ⟨hw, hst⟩ := h
      subst hst
      refine ⟨hw.symm, ?_, hn1, hn2⟩
      simp only [Bool.and_eq_true, decide_eq_true_eq] at hg
      exact hg

/-- C6: confirmed.  Whenever a battle loop terminates (in any of the
three modes), the reported outcome matches the terminal rule: both teams
empty (by the mode's own emptiness test) gives a draw —
`commence_battle` returns no winner — and otherwise the owner of the
unique non-empty team wins.  In particular a double knockout of two
single-combatant SET teams in one exchange yields a draw with both live
counts at 0 (src/battle.py lines 153-160, 207-214, 271-278). -/
theorem C6_terminal_outcome :
    (∀ (compl : Finset Nat → Rat) (crit : String) (mode : BattleMode) (fuel : Nat)
       (st : BattleState) (w : Option Winner) (st' : BattleState),
       0 ≤ st.team1.team_count → 0 ≤ st.team2.team_count →
       commenceBattle compl crit mode fuel st = some (w, st') →
       ((battleTeamEmpty mode st'.team1 = true ∧ battleTeamEmpty mode st'.team2 = true) →
          w = none) ∧
       ((battleTeamEmpty mode st'.team1 = true ∧ battleTeamEmpty mode st'.team2 = false) →
          w = some .trainer_2) ∧
       (battleTeamEmpty mode st'.team1 = false →
          battleTeamEmpty mode st'.team2 = true ∧ w = some .trainer_1)) ∧
    (∀ (compl : Finset Nat → Rat) (crit : String) (d1 d2 : Finset Nat) (p1 p2 : Pokemon),
       (battleFn (compl (registerPokemon d1 p2)) (compl (registerPokemon d2 p1)) p1 p2).p1.is_alive = false →
       (battleFn (compl (registerPokemon d1 p2)) (compl (registerPokemon d2 p1)) p1 p2).p2.is_alive = false →
       ∃ st', commenceBattle compl crit .SET 2
           ⟨⟨.stack [some p1], 1, crit, .SET⟩, ⟨.stack [some p2], 1, crit, .SET⟩, d1, d2⟩ =
         some (none, st') ∧ st'.team1.team_count = 0 ∧ st'.team2.team_count = 0 ∧
         containerIsEmpty st'.team1.team = true ∧ containerIsEmpty st'.team2.team = true) := by
  constructor
  · intro compl crit mode fuel st w st' hn1 hn2 h
    match mode with
    | .SET =>
      obtain ⟨hw, hdisj⟩ := setBattleLoop_exit compl fuel st w st' h
      subst hw
      cases e1 : containerIsEmpty st'.team1.team <;>
        cases e2 : containerIsEmpty st'.team2.team <;>
        simp_all [battleTeamEmpty, setRotateOutcome]
    | .ROTATE =>
      obtain ⟨hw, hdisj⟩ := rotateBattleLoop_exit compl fuel st w st' h
      subst hw
      cases e1 : containerIsEmpty st'.team1.team <;>
        cases e2 : containerIsEmpty st'.team2.team <;>
        simp_all [battleTeamEmpty, setRotateOutcome]
    | .OPTIMISE =>
      obtain ⟨hw, hdisj, hg1, hg2⟩ :=
        optimiseBattleLoop_exit compl crit fuel st w st' hn1 hn2 h
      subst hw
      by_cases e1 : st'.team1.team_count = 0 <;> by_cases e2 : st'.team2.team_count = 0 <;>
        simp_all [battleTeamEmpty, optimiseOutcome, PokeTeam.is_empty] <;> omega
  · intro compl crit d1 d2 p1 p2 ha1 ha2
    refine ⟨⟨⟨.stack [], 0, crit, .SET⟩, ⟨.stack [], 0, crit, .SET⟩,
      registerPokemon d1 p2, registerPokemon d2 p1⟩, ?_, rfl, rfl, rfl, rfl⟩
    simp [commenceBattle, setBattleLoop, setBattleStep, stackPop, containerIsEmpty,
      ha1, ha2, setRotateOutcome]

/-- Witness for C6: an immediately terminated battle between two empty
SET teams is reported as a draw, and a concrete double knockout of two
single-combatant SET teams (healths 3, attack values 20, equal speeds,
completions 1) ends as a draw with both live counts at 0. -/
theorem C6_terminal_outcome_witness :
    (commenceBattle (fun _ => (1 : Rat)) "health" .SET 1
        ⟨⟨.stack [], 0, "health", .SET⟩, ⟨.stack [], 0, "health", .SET⟩, ∅, ∅⟩ =
      some (none, ⟨⟨.stack [], 0, "health", .SET⟩, ⟨.stack [], 0, "health", .SET⟩, ∅, ∅⟩)) ∧
    ((battleTeamEmpty .SET (⟨.stack [], 0, "health", .SET⟩ : PokeTeam) = true ∧
        battleTeamEmpty .SET (⟨.stack [], 0, "health", .SET⟩ : PokeTeam) = true) →
      (none : Option Winner) = none) ∧
    (∃ st', commenceBattle (fun _ => (1 : Rat)) "health" .SET 2
        ⟨⟨.stack [some ⟨3, 1, 4, 20, 2, 0⟩], 1, "health", .SET⟩,
         ⟨.stack [some ⟨3, 1, 4, 20, 2, 0⟩], 1, "health", .SET⟩, ∅, ∅⟩ =
      some (none, st') ∧ st'.team1.team_count = 0 ∧ st'.team2.team_count = 0 ∧
      containerIsEmpty st'.team1.team = true ∧ containerIsEmpty st'.team2.team = true) :=
  ⟨rfl,
   (C6_terminal_outcome.1 (fun _ => (1 : Rat)) "health" .SET 1
      ⟨⟨.stack [], 0, "health", .SET⟩, ⟨.stack [], 0, "health", .SET⟩, ∅, ∅⟩ none
      ⟨⟨.stack [], 0, "health", .SET⟩, ⟨.stack [], 0, "health", .SET⟩, ∅, ∅⟩
      (by decide) (by decide) rfl).1,
   C6_terminal_outcome.2 (fun _ => (1 : Rat)) "health" ∅ ∅
     ⟨3, 1, 4, 20, 2, 0⟩ ⟨3, 1, 4, 20, 2, 0⟩
     (by simp [battleFn, battle_attack_phase, battle_level_phase, Pokemon.attack,
       Pokemon.defend, Pokemon.is_alive, Pokemon.level_up, effective_damage_one_one])
     (by simp [battleFn, battle_attack_phase, battle_level_phase, Pokemon.attack,
       Pokemon.defend, Pokemon.is_alive, Pokemon.level_up, effective_damage_one_one])⟩

end PocketMonstersProof
